import Mathlib

/-!
Verification of the filter-and-aggregate pipeline of the Olympic athlete
dashboard (`src/streamlit.py`).

The script loads a CSV into a pandas dataframe, renames `NOC` to `Country`
and `Team` to `Team Name`, derives a `BMI` column, filters by a year range,
an optional sport and a set of countries, and recomputes a fixed family of
aggregates from the filtered frame.

Modelling conventions:
  - a dataframe is a `List Row`; a missing (NaN) cell of an optional column
    is `none`;
  - numeric cells are rationals (`ℚ`), abstracting IEEE rounding but keeping
    the NaN/infinity propagation of the one arithmetic expression in the
    script (the BMI formula) explicit via `BMIVal`;
  - `value_counts`, `groupby`, `unstack`, `sort_values` and `nunique` are
    translated to list operations with the documented pandas semantics:
    `value_counts` drops NaN keys and sorts by count descending, `groupby`
    sorts its keys ascending and produces only observed groups,
    `unstack(fill_value=0)` spreads the inner key level into columns over
    the observed keys filling absent combinations with 0, and `nunique`
    counts distinct non-null values.  Sorting is modelled by the stable
    `List.insertionSort`;
  - Python string comparison (used by pandas when sorting string keys) is
    code-point order, modelled by `strLe`.
-/

/-- Code-point lexicographic order on lists of naturals. -/
def natListLe : List Nat → List Nat → Bool
  | [], _ => true
  | _ :: _, [] => false
  | x :: xs, y :: ys => if x < y then true else if y < x then false else natListLe xs ys

/-- Python string order: lexicographic on code points. -/
def strLe (a b : String) : Bool := natListLe (a.data.map Char.toNat) (b.data.map Char.toNat)

/-- Value of the derived BMI cell.  A pandas float cell is NaN (the dataframe
notion of null), an infinity, or a finite number. -/
inductive BMIVal where
  | nan : BMIVal
  | posInf : BMIVal
  | negInf : BMIVal
  | finite : ℚ → BMIVal
deriving DecidableEq

/-- `true` exactly when the cell is NaN, i.e. counts as missing for
`dropna`/`isna`. Infinities are NOT null in pandas. -/
def BMIVal.isNull : BMIVal → Bool
  | .nan => true
  | _ => false

/-- Float semantics of `df['Weight'] / ((df['Height'] / 100) ** 2)` on one
row (line 26 of the script): NaN operands propagate to NaN; division of a
nonzero value by zero yields a signed infinity; `0/0` yields NaN.  Over ℚ
the divisor `(h/100)^2` is zero exactly when `h = 0`. -/
def computeBMI (height weight : Option ℚ) : BMIVal :=
  match height, weight with
  | none, _ => .nan
  | some _, none => .nan
  | some h, some w =>
    if h = 0 then
      if w = 0 then .nan
      else if 0 < w then .posInf
      else .negInf
    else .finite (w / (h / 100) ^ 2)

/-- One athlete-event-games participation row, after the column renames of
`load_data` (`NOC` → `Country`, `Team` → `Team Name`).  Optional columns
model NaN as `none`. -/
structure Row where
  id : Nat
  name : String
  sex : Option String
  age : Option ℚ
  height : Option ℚ
  weight : Option ℚ
  country : Option String
  year : Int
  sport : Option String
  event : String
  medal : Option String
deriving DecidableEq

/-- The derived BMI cell of a row, as computed once at load time. -/
def Row.bmi (r : Row) : BMIVal := computeBMI r.height r.weight

/-- The sidebar filter state: a closed year range from the slider, a sport
from the selectbox (`"All"` is the no-filter sentinel) and the multiselect
country list (empty means no country filter). -/
structure Selection where
  yearLo : Int
  yearHi : Int
  sport : String
  countries : List String
deriving DecidableEq

/-- Year-range condition of lines 60-63. -/
def yearOk (s : Selection) (r : Row) : Bool :=
  decide (s.yearLo ≤ r.year) && decide (r.year ≤ s.yearHi)

/-- Sport condition of line 65.  A NaN `Sport` cell compares unequal to any
selected sport, as in pandas. -/
def sportOk (s : Selection) (r : Row) : Bool := r.sport == some s.sport

/-- Country condition of line 67 (`isin`).  A NaN `Country` cell is never a
member, as in pandas. -/
def countryOk (s : Selection) (r : Row) : Bool :=
  match r.country with
  | some c => s.countries.contains c
  | none => false

/-- Lines 59-67: start from a copy of the frame, keep the rows in the year
range, then conditionally restrict by sport and by country membership. -/
def filteredDf (df : List Row) (s : Selection) : List Row :=
  let d1 := df.filter (yearOk s)
  let d2 := if s.sport ≠ "All" then d1.filter (sportOk s) else d1
  if s.countries.isEmpty = false then d2.filter (countryOk s) else d2

/-- The conjunction of the three filter conditions, with the sentinel checks
made explicit. -/
def matchesSel (s : Selection) (r : Row) : Bool :=
  yearOk s r && (s.sport == "All" || sportOk s r) && (s.countries.isEmpty || countryOk s r)

/-- Rows whose `Medal` cell is present, i.e. `dropna(subset=['Medal'])`. -/
def medalRows (l : List Row) : List Row := l.filter (fun r => r.medal.isSome)

/-- Line 76, `filtered_df['ID'].nunique()`: number of distinct athlete IDs
(the `ID` column has no NaN). -/
def totalAthletes (d : List Row) (s : Selection) : Nat :=
  (((filteredDf d s).map Row.id).dedup).length

/-- Line 77, `filtered_df['Event'].nunique()`. -/
def totalEvents (d : List Row) (s : Selection) : Nat :=
  (((filteredDf d s).map Row.event).dedup).length

/-- Line 78, `filtered_df['Country'].nunique()`: `nunique` ignores NaN. -/
def totalCountries (d : List Row) (s : Selection) : Nat :=
  (((filteredDf d s).filterMap Row.country).dedup).length

/-- Line 79, `len(filtered_df.dropna(subset=['Medal']))`. -/
def totalMedals (d : List Row) (s : Selection) : Nat :=
  (medalRows (filteredDf d s)).length

/-- Line 96, the rows fed to the age histogram: `dropna(subset=['Age'])`. -/
def ageRows (l : List Row) : List Row := l.filter (fun r => r.age.isSome)

/-- Line 126, the rows fed to the height/weight scatter:
`dropna(subset=['Height', 'Weight', 'Sex'])`. -/
def hwRows (l : List Row) : List Row :=
  l.filter (fun r => r.height.isSome && r.weight.isSome && r.sex.isSome)

/-- Line 138, the rows fed to the BMI histogram: `dropna(subset=['BMI'])`
drops NaN BMI cells only (an infinite BMI is not NaN). -/
def bmiRows (l : List Row) : List Row := l.filter (fun r => !r.bmi.isNull)

/-- Line 107, `filtered_df['Sex'].value_counts()`: counts of each non-null
`Sex` value (`value_counts` drops NaN keys by default), sorted by count
descending. -/
def genderCounts (l : List Row) : List (String × Nat) :=
  List.insertionSort (fun a b => b.2 ≤ a.2)
    (((l.filterMap Row.sex).dedup).map (fun v => (v, l.countP (fun r => r.sex == some v))))

/-- Line 157, `dropna(subset=['Medal'])['Sport'].value_counts().head(10)`:
medal-bearing rows counted per (non-null) sport, sorted by count descending,
first ten kept. -/
def medalCounts (l : List Row) : List (String × Nat) :=
  (List.insertionSort (fun a b => b.2 ≤ a.2)
    ((((medalRows l).filterMap Row.sport).dedup).map
      (fun sp => (sp, (medalRows l).countP (fun r => r.sport == some sp))))).take 10

/-- The (Year, Medal) keys observed among medal-bearing rows, i.e. the group
keys of `groupby(['Year', 'Medal'])` on line 169. -/
def medalKeys (l : List Row) : List (Int × String) :=
  ((medalRows l).filterMap (fun r => r.medal.map (fun m => (r.year, m)))).dedup

/-- Number of medal-bearing rows with the given year and medal type. -/
def countYearMedal (l : List Row) (y : Int) (m : String) : Nat :=
  (medalRows l).countP (fun r => r.year == y && r.medal == some m)

/-- Line 169 before `unstack`: `groupby(['Year', 'Medal'])['ID'].count()`,
one entry per observed (Year, Medal) key (`ID` has no NaN, so `count` is the
group size). -/
def medalGroups (l : List Row) : List ((Int × String) × Nat) :=
  (medalKeys l).map (fun k => (k, countYearMedal l k.1 k.2))

/-- The row index of the unstacked pivot: the years observed among
medal-bearing rows, ascending. -/
def pivotYears (l : List Row) : List Int :=
  List.insertionSort (fun a b => a ≤ b) (((medalKeys l).map Prod.fst).dedup)

/-- The column index of the unstacked pivot: the medal types observed among
medal-bearing rows, in Python string order. -/
def pivotMedals (l : List Row) : List String :=
  List.insertionSort (fun a b => strLe a b = true) (((medalKeys l).map Prod.snd).dedup)

/-- `unstack(fill_value=0)` cell content: the grouped count for the key when
the key was observed, else the fill value 0. -/
def unstackCell (g : List ((Int × String) × Nat)) (y : Int) (m : String) : Nat :=
  match g.find? (fun e => e.1 == (y, m)) with
  | some e => e.2
  | none => 0

/-- Line 169, `medal_year_type` as a table accessor: a cell exists exactly
when its year is a row of the pivot and its medal type is a column, and then
holds the `unstack(fill_value=0)` count. -/
def medalYearType (l : List Row) (y : Int) (m : String) : Option Nat :=
  if y ∈ pivotYears l ∧ m ∈ pivotMedals l then some (unstackCell (medalGroups l) y m)
  else none

/-- Line 186:
`dropna(subset=['Medal']).groupby('Name')['Medal'].count().sort_values(ascending=False).head(10)`.
`groupby` sorts the names ascending (Python string order); `count` on the
`Medal` column of a medal-bearing group is the group size; the stable
descending sort by count then keeps tied names in that ascending name
order. -/
def topAthletes (l : List Row) : List (String × Nat) :=
  (List.insertionSort (fun a b => b.2 ≤ a.2)
    ((List.insertionSort (fun a b => strLe a b = true) (((medalRows l).map Row.name).dedup)).map
      (fun n => (n, (medalRows l).countP (fun r => r.name == n))))).take 10

/-- Lines 198-204: rows of the selected countries with a medal, grouped by
(Year, Country) and counted.  The group keys are the observed ones. -/
def countryMedalsOverYears (countries : List String) (l : List Row) :
    List ((Int × String) × Nat) :=
  let sub := medalRows (l.filter (fun r =>
    match r.country with
    | some c => countries.contains c
    | none => false))
  ((sub.filterMap (fun r => r.country.map (fun c => (r.year, c)))).dedup).map
    (fun k => (k, sub.countP (fun r => r.year == k.1 && r.country == some k.2)))

/-- Line 218, `filtered_df.groupby('Year')['ID'].nunique()`: distinct IDs
per observed year, years ascending. -/
def athletesOverYears (l : List Row) : List (Int × Nat) :=
  (List.insertionSort (fun a b => a ≤ b) ((l.map Row.year).dedup)).map
    (fun y => (y, ((l.filter (fun r => r.year == y)).map Row.id).dedup.length))

/-- The two dataframe bindings live in the script: the loaded frame `df`
(line 29) and the view `filtered_df` built from it (lines 59-67). -/
structure DashboardState where
  df : List Row
  filtered : List Row
deriving DecidableEq

/-- The filter block of lines 59-67 as a state transformer: each step
rebinds `filtered_df` (starting from a copy of `df`) and leaves `df`
untouched. -/
def applyFilters (s : Selection) (st : DashboardState) : DashboardState :=
  let st1 : DashboardState := { st with filtered := st.df }
  let st2 : DashboardState := { st1 with filtered := st1.filtered.filter (yearOk s) }
  let st3 : DashboardState :=
    if s.sport ≠ "All" then { st2 with filtered := st2.filtered.filter (sportOk s) } else st2
  if s.countries.isEmpty = false then
    { st3 with filtered := st3.filtered.filter (countryOk s) }
  else st3

/-- Line 37, `sorted(df['Year'].unique())`. -/
def yearList (d : List Row) : List Int :=
  List.insertionSort (fun a b => a ≤ b) ((d.map Row.year).dedup)

/-- Line 38, `min(year_list)` (Python `min` folds over the list; the value
for an empty frame is irrelevant since `min` raises there). -/
def minYear (d : List Row) : Int :=
  match yearList d with
  | [] => 0
  | y :: ys => ys.foldl min y

/-- Line 38, `max(year_list)`. -/
def maxYear (d : List Row) : Int :=
  match yearList d with
  | [] => 0
  | y :: ys => ys.foldl max y

/-- The neutral selection: the slider at its full span, sport `"All"`, no
country selected. -/
def neutralSel (d : List Row) : Selection :=
  { yearLo := minYear d, yearHi := maxYear d, sport := "All", countries := [] }

/-- Sample row: a gold medalist. -/
def rowGold2000 : Row :=
  { id := 1, name := "Ann", sex := some "F", age := none, height := none, weight := none,
    country := some "JPN", year := 2000, sport := some "Judo", event := "Judo Open",
    medal := some "Gold" }

/-- Sample row: a silver medalist from a later games. -/
def rowSilver2004 : Row :=
  { id := 2, name := "Cal", sex := some "M", age := none, height := none, weight := none,
    country := some "USA", year := 2004, sport := some "Swimming", event := "100m Free",
    medal := some "Silver" }

/-- Sample row whose `Sex` cell is missing. -/
def rowNoSex : Row :=
  { id := 3, name := "Bea", sex := none, age := none, height := none, weight := none,
    country := some "JPN", year := 2000, sport := some "Judo", event := "Judo Open",
    medal := none }

/-- Sample medalist named `"Zed"`, appearing before `"Ann"` in the frame. -/
def rowZed : Row :=
  { id := 4, name := "Zed", sex := some "M", age := none, height := none, weight := none,
    country := some "JPN", year := 2000, sport := some "Judo", event := "Judo Open",
    medal := some "Gold" }

/-- Sample medalist named `"Ann"`, appearing after `"Zed"` in the frame. -/
def rowAnnLate : Row :=
  { id := 5, name := "Ann", sex := some "F", age := none, height := none, weight := none,
    country := some "JPN", year := 2000, sport := some "Judo", event := "Judo Open",
    medal := some "Gold" }

/-- Sample row with height 180 cm and weight 80 kg. -/
def rowBMIEx : Row :=
  { id := 6, name := "Eve", sex := some "F", age := none, height := some 180,
    weight := some 80, country := some "JPN", year := 2000, sport := some "Judo",
    event := "Judo Open", medal := none }

/-- Sample row with a zero height and a positive weight. -/
def rowBMIZero : Row :=
  { id := 7, name := "Nil", sex := some "M", age := none, height := some 0,
    weight := some 80, country := some "JPN", year := 2000, sport := some "Judo",
    event := "Judo Open", medal := none }

/-- A frame whose only medal type is Gold. -/
def goldOnlyFrame : List Row := [rowGold2000]

/-- A frame with a Gold in 2000 and a Silver in 2004 (and no Silver in 2000). -/
def twoRowFrame : List Row := [rowGold2000, rowSilver2004]

/-- A frame with one row whose `Sex` is missing. -/
def noSexFrame : List Row := [rowNoSex]

/-- A frame with two one-medal athletes, `"Zed"` first. -/
def tieFrame : List Row := [rowZed, rowAnnLate]

/-- A selection whose year range `[1, 1]` matches no row of the sample
frames. -/
def missSel : Selection := { yearLo := 1, yearHi := 1, sport := "All", countries := [] }

theorem filteredDf_eq_filter (df : List Row) (s : Selection) :
    filteredDf df s = df.filter (matchesSel s) := by
  unfold filteredDf
  by_cases hs : s.sport = "All" <;> by_cases hc : s.countries.isEmpty <;>
    simp only [hs, hc, ne_eq, not_true_eq_false, not_false_eq_true, if_true, if_false,
      Bool.true_eq_false, Bool.false_eq_true, ite_true, ite_false, List.filter_filter] <;>
    refine List.filter_congr (fun r _ => ?_) <;>
    simp [matchesSel, hs, hc] <;>
    cases yearOk s r <;> cases sportOk s r <;> cases countryOk s r <;> simp_all

theorem matchesSel_iff (s : Selection) (r : Row) :
    matchesSel s r = true ↔
      (s.yearLo ≤ r.year ∧ r.year ≤ s.yearHi) ∧
      (s.sport ≠ "All" → r.sport = some s.sport) ∧
      (s.countries ≠ [] → ∃ c, r.country = some c ∧ c ∈ s.countries) := by
  unfold matchesSel yearOk sportOk countryOk
  cases hco : r.country with
  | none =>
    simp [hco, List.isEmpty_iff]
    by_cases hs : s.sport = "All" <;> by_cases hc : s.countries = [] <;>
      simp [hs, hc] <;> tauto
  | some c =>
    simp [hco, List.isEmpty_iff]
    by_cases hs : s.sport = "All" <;> by_cases hc : s.countries = [] <;>
      simp [hs, hc] <;> tauto

/-- Claim C2: `filtered_df` keeps exactly the rows of the input frame whose `Year`
lies in the selected closed range, whose `Sport` equals the selected sport
when one is selected (sentinel `"All"` means none), and whose `Country` is a
member of the selected country list when that list is non-empty. -/
theorem filteredDf_mem_iff (df : List Row) (s : Selection) (r : Row) :
    r ∈ filteredDf df s ↔
      r ∈ df ∧ (s.yearLo ≤ r.year ∧ r.year ≤ s.yearHi) ∧
      (s.sport ≠ "All" → r.sport = some s.sport) ∧
      (s.countries ≠ [] → ∃ c, r.country = some c ∧ c ∈ s.countries) := by
  rw [filteredDf_eq_filter, List.mem_filter, matchesSel_iff]

/-- Claim C7: filtering is idempotent — applying the same selection to the output
of the filter returns that output unchanged. -/
theorem filteredDf_idem (df : List Row) (s : Selection) :
    filteredDf (filteredDf df s) s = filteredDf df s := by
  rw [filteredDf_eq_filter, filteredDf_eq_filter df s, List.filter_filter]
  exact List.filter_congr (fun r _ => by cases matchesSel s r <;> simp)

/-- Claim C9: the filter block never mutates the loaded frame — after running
it, the `df` binding is unchanged, and the `filtered_df` binding is a newly
derived view (`filteredDf`), a sub-sequence of the loaded frame. -/
theorem applyFilters_frame (st : DashboardState) (s : Selection) :
    (applyFilters s st).df = st.df ∧
    (applyFilters s st).filtered = filteredDf st.df s ∧
    ((applyFilters s st).filtered).Sublist st.df := by
  have hdf : (applyFilters s st).df = st.df := by
    unfold applyFilters
    by_cases hs : s.sport ≠ "All" <;> by_cases hc : s.countries.isEmpty = false <;>
      simp [hs, hc]
  have hf : (applyFilters s st).filtered = filteredDf st.df s := by
    unfold applyFilters filteredDf
    by_cases hs : s.sport ≠ "All" <;> by_cases hc : s.countries.isEmpty = false <;>
      simp [hs, hc]
  refine ⟨hdf, hf, ?_⟩
  rw [hf, filteredDf_eq_filter]
  exact List.filter_sublist st.df

/-- Claim C6: the Total Medals metric is the number of rows of the filtered
view whose `Medal` is present, and the Total Athletes metric is the number
of distinct `ID` values of the filtered view. -/
theorem metrics_consistent (d : List Row) (s : Selection) :
    totalMedals d s = (filteredDf d s).countP (fun r => r.medal.isSome) ∧
    totalAthletes d s = ((filteredDf d s).map Row.id).toFinset.card := by
  constructor
  · rw [totalMedals, medalRows, List.countP_eq_length_filter]
  · rw [totalAthletes, List.card_toFinset]

/-- Counterexample to claim C1 as stated: on a row with `Height = 0` and
`Weight = 80` (both present), the computed BMI cell is positive infinity —
a defined, non-null value — where the claim requires null. -/
theorem bmi_zero_height_cex :
    rowBMIZero.height = some 0 ∧ rowBMIZero.weight = some 80 ∧
    rowBMIZero.bmi = BMIVal.posInf ∧ rowBMIZero.bmi.isNull = false := by
  refine ⟨rfl, rfl, ?_, ?_⟩ <;>
    norm_num [Row.bmi, computeBMI, rowBMIZero, BMIVal.isNull]

/-- Claim C1 (amended): the derived BMI cell equals
`Weight / (Height/100)^2` when both are present and `Height ≠ 0`; it is
null when `Height` or `Weight` is missing, or when both are present and
zero; when `Height = 0` and `Weight ≠ 0` it is a signed infinity, which is
not null. -/
theorem bmi_amended (r : Row) :
    (∀ h w, r.height = some h → r.weight = some w → h ≠ 0 →
      r.bmi = BMIVal.finite (w / (h / 100) ^ 2)) ∧
    (r.height = none ∨ r.weight = none → r.bmi = BMIVal.nan) ∧
    (r.height = some 0 → r.weight = some 0 → r.bmi = BMIVal.nan) ∧
    (∀ w, r.height = some 0 → r.weight = some w → 0 < w → r.bmi = BMIVal.posInf) ∧
    (∀ w, r.height = some 0 → r.weight = some w → w < 0 → r.bmi = BMIVal.negInf) := by
  refine ⟨?_, ?_, ?_, ?_, ?_⟩
  · intro h w hh hw hne
    simp [Row.bmi, computeBMI, hh, hw, hne]
  · rintro (hh | hw)
    · simp [Row.bmi, computeBMI, hh]
    · cases hh : r.height <;> simp [Row.bmi, computeBMI, hh, hw]
  · intro hh hw
    simp [Row.bmi, computeBMI, hh, hw]
  · intro w hh hw hpos
    simp [Row.bmi, computeBMI, hh, hw, hpos, hpos.ne']
  · intro w hh hw hneg
    simp [Row.bmi, computeBMI, hh, hw, hneg.ne, lt_asymm hneg]

/-- Witness for C1 (amended) at Height 180 cm, Weight 80 kg:
BMI = 2000/81 ≈ 24.69. -/
theorem bmi_amended_witness :
    rowBMIEx.height = some 180 ∧ rowBMIEx.weight = some 80 ∧ (180 : ℚ) ≠ 0 ∧
    rowBMIEx.bmi = BMIVal.finite (2000 / 81) := by
  refine ⟨rfl, rfl, by norm_num, ?_⟩
  rw [(bmi_amended rowBMIEx).1 180 80 rfl rfl (by norm_num)]
  simp only [BMIVal.finite.injEq]
  norm_num

/-- Counterexample to claim C4 as stated: on a frame with one row whose
`Sex` is missing, `value_counts` returns no buckets at all — the null rows
are dropped, not counted as their own bucket. -/
theorem genderCounts_null_cex :
    noSexFrame.length = 1 ∧ rowNoSex.sex = none ∧ genderCounts noSexFrame = [] := by
  refine ⟨rfl, rfl, ?_⟩
  decide

/-- Claim C4 (amended): the gender-proportion view has one bucket per
distinct non-null `Sex` value, holding the number of rows with that value;
rows with a missing `Sex` are excluded and form no bucket. -/
theorem genderCounts_mem_iff (l : List Row) (v : String) (c : Nat) :
    (v, c) ∈ genderCounts l ↔
      some v ∈ l.map Row.sex ∧ c = l.countP (fun r => r.sex == some v) := by
  unfold genderCounts
  rw [(List.perm_insertionSort _ _).mem_iff, List.mem_map]
  constructor
  · rintro ⟨a, ha, heq⟩
    rw [List.mem_dedup, List.mem_filterMap] at ha
    obtain ⟨hv, hc⟩ := Prod.mk.injEq .. ▸ heq
    subst hv
    obtain ⟨r, hr, hs⟩ := ha
    exact ⟨List.mem_map.mpr ⟨r, hr, hs⟩, hc.symm⟩
  · rintro ⟨hv, hc⟩
    refine ⟨v, ?_, by rw [hc]⟩
    rw [List.mem_dedup, List.mem_filterMap]
    obtain ⟨r, hr, hs⟩ := List.mem_map.mp hv
    exact ⟨r, hr, hs⟩

/-- Counterexample to claim C3 as stated: on a filtered view whose only
medal anywhere is a Gold in 2000, the pivot has no Silver column at all —
the (2000, Silver) cell is a missing entry, not a filled 0. -/
theorem medalYearType_cex :
    medalYearType goldOnlyFrame 2000 "Gold" = some 1 ∧
    medalYearType goldOnlyFrame 2000 "Silver" = none := by
  constructor <;> decide

/-- Claim C3 (amended): for every year observed among the medal-bearing rows
and every medal type observed anywhere among them, the unstacked pivot has a
cell holding the count of medal-bearing rows of that year and type — 0 when
the combination itself is absent.  Only (year, type) combinations whose type
appears nowhere in the view are missing entries. -/
theorem medalYearType_fill (l : List Row) (y : Int) (m : String)
    (hy : y ∈ pivotYears l) (hm : m ∈ pivotMedals l) :
    medalYearType l y m = some (countYearMedal l y m) := by
  unfold medalYearType
  rw [if_pos ⟨hy, hm⟩]
  have hcell : unstackCell (medalGroups l) y m = countYearMedal l y m := by
    unfold unstackCell
    cases hf : (medalGroups l).find? (fun e => e.1 == (y, m)) with
    | some e =>
      have he : e.1 = (y, m) := by
        have := List.find?_some hf
        simpa using this
      have hmem := List.mem_of_find?_eq_some hf
      unfold medalGroups at hmem
      rw [List.mem_map] at hmem
      obtain ⟨k, _, hke⟩ := hmem
      have hk1 : k = (y, m) := by
        rw [← he, ← hke]
      rw [← hke, hk1]
    | none =>
      rw [List.find?_eq_none] at hf
      symm
      rw [countYearMedal, List.countP_eq_zero]
      intro r hr hp
      simp only [Bool.and_eq_true, beq_iff_eq] at hp
      obtain ⟨hry, hrm⟩ := hp
      have hkey : (y, m) ∈ medalKeys l := by
        rw [medalKeys, List.mem_dedup, List.mem_filterMap]
        exact ⟨r, hr, by rw [hrm, hry]; rfl⟩
      have := hf ((y, m), countYearMedal l y m)
        (by rw [medalGroups, List.mem_map]; exact ⟨(y, m), hkey, rfl⟩)
      simp at this
  rw [hcell]

/-- Witness for C3 (amended): in a view with a Gold in 2000 and a Silver in
2004, the (2000, Silver) cell exists and is a filled 0, not missing. -/
theorem medalYearType_fill_witness :
    2000 ∈ pivotYears twoRowFrame ∧ "Silver" ∈ pivotMedals twoRowFrame ∧
    countYearMedal twoRowFrame 2000 "Silver" = 0 ∧
    medalYearType twoRowFrame 2000 "Silver" = some 0 := by
  refine ⟨by decide, by decide, by decide, ?_⟩
  exact (medalYearType_fill twoRowFrame 2000 "Silver" (by decide) (by decide)).trans
    (by decide)

theorem sortedDesc_take {α : Type} (xs : List (α × Nat)) :
    ((List.insertionSort (fun (a b : α × Nat) => b.2 ≤ a.2) xs).take 10).length ≤ 10 ∧
    ∀ (i j : Nat) (x y : α × Nat), i < j →
      ((List.insertionSort (fun (a b : α × Nat) => b.2 ≤ a.2) xs).take 10)[i]? = some x →
      ((List.insertionSort (fun (a b : α × Nat) => b.2 ≤ a.2) xs).take 10)[j]? = some y →
      y.2 ≤ x.2 := by
  haveI h1 : IsTotal (α × Nat) (fun a b => b.2 ≤ a.2) := ⟨fun a b => le_total b.2 a.2⟩
  haveI h2 : IsTrans (α × Nat) (fun a b => b.2 ≤ a.2) :=
    ⟨fun _ _ _ hab hbc => le_trans hbc hab⟩
  have hs := List.sorted_insertionSort (fun (a b : α × Nat) => b.2 ≤ a.2) xs
  have hp := List.Pairwise.sublist (List.take_sublist 10 _) hs
  constructor
  · rw [List.length_take]
    exact inf_le_left
  · intro i j x y hij hx hy
    rw [List.getElem?_eq_some] at hx hy
    obtain ⟨hi, hgi⟩ := hx
    obtain ⟨hj, hgj⟩ := hy
    have := List.pairwise_iff_getElem.mp hp i j hi hj hij
    rw [hgi, hgj] at this
    exact this

/-- Counterexample to claim C5 as stated: two athletes tied at one medal
each, `"Zed"` first in the input; the top-athletes list orders them
`"Ann"` then `"Zed"` — the `groupby('Name')` key order, not the stable
input order. -/
theorem topAthletes_tie_cex :
    (medalRows tieFrame).map Row.name = ["Zed", "Ann"] ∧
    topAthletes tieFrame = [("Ann", 1), ("Zed", 1)] := by
  constructor <;> decide

/-- Claim C5 (amended): the top-sports and top-athletes views each return at
most 10 entries, sorted descending by medal count (count at any earlier
position is at least the count at any later one); ties are ordered by the
grouped key order (ascending name for athletes), not by stable input
order. -/
theorem topN_bound_sorted (l : List Row) :
    (medalCounts l).length ≤ 10 ∧ (topAthletes l).length ≤ 10 ∧
    (∀ (i j : Nat) (x y : String × Nat), i < j →
      (medalCounts l)[i]? = some x → (medalCounts l)[j]? = some y → y.2 ≤ x.2) ∧
    (∀ (i j : Nat) (x y : String × Nat), i < j →
      (topAthletes l)[i]? = some x → (topAthletes l)[j]? = some y → y.2 ≤ x.2) :=
  ⟨(sortedDesc_take _).1, (sortedDesc_take _).1, (sortedDesc_take _).2, (sortedDesc_take _).2⟩

/-- Witness for C5 (amended) on the two-athlete tie frame: positions 0 and 1
exist and the later count is at most the earlier one. -/
theorem topN_bound_sorted_witness :
    (0 : Nat) < 1 ∧ (topAthletes tieFrame)[0]? = some ("Ann", 1) ∧
    (topAthletes tieFrame)[1]? = some ("Zed", 1) ∧ (("Zed", 1).2 : Nat) ≤ ("Ann", 1).2 := by
  refine ⟨by decide, by decide, by decide, ?_⟩
  exact (topN_bound_sorted tieFrame).2.2.2 0 1 ("Ann", 1) ("Zed", 1)
    (by decide) (by decide) (by decide)

/-- Claim C8: when no row satisfies the combined filter predicate, the
filtered view is empty and every aggregate of the dashboard — the four
metrics, the histogram/scatter inputs, the gender counts, the two top-10
lists, the medal pivot, the per-country series and the per-year athlete
series — is empty or zero, never an error (all the aggregate functions are
total). -/
theorem empty_selection (d : List Row) (s : Selection)
    (h : ∀ r ∈ d, matchesSel s r = false) :
    filteredDf d s = [] ∧
    totalAthletes d s = 0 ∧ totalEvents d s = 0 ∧ totalCountries d s = 0 ∧
    totalMedals d s = 0 ∧
    ageRows (filteredDf d s) = [] ∧ hwRows (filteredDf d s) = [] ∧
    bmiRows (filteredDf d s) = [] ∧ genderCounts (filteredDf d s) = [] ∧
    medalCounts (filteredDf d s) = [] ∧ topAthletes (filteredDf d s) = [] ∧
    (∀ y m, medalYearType (filteredDf d s) y m = none) ∧
    countryMedalsOverYears s.countries (filteredDf d s) = [] ∧
    athletesOverYears (filteredDf d s) = [] := by
  have he : filteredDf d s = [] := by
    rw [filteredDf_eq_filter]
    exact List.filter_eq_nil_iff.mpr (fun r hr => by simp [h r hr])
  refine ⟨he, ?_, ?_, ?_, ?_, ?_, ?_, ?_, ?_, ?_, ?_, ?_, ?_, ?_⟩ <;>
    simp [totalAthletes, totalEvents, totalCountries, totalMedals, medalRows, ageRows,
      hwRows, bmiRows, genderCounts, medalCounts, topAthletes, medalYearType, pivotYears,
      pivotMedals, medalKeys, medalGroups, countryMedalsOverYears, athletesOverYears,
      unstackCell, he, List.insertionSort]

/-- Witness for C8: the sample one-row frame and the year range [1, 1] that
matches nothing. -/
theorem empty_selection_witness :
    (∀ r ∈ goldOnlyFrame, matchesSel missSel r = false) ∧
    filteredDf goldOnlyFrame missSel = [] ∧ totalMedals goldOnlyFrame missSel = 0 := by
  refine ⟨by decide, ?_, ?_⟩
  · exact (empty_selection goldOnlyFrame missSel (by decide)).1
  · exact (empty_selection goldOnlyFrame missSel (by decide)).2.2.2.2.1

theorem foldl_min_le_init (ys : List Int) (y : Int) : ys.foldl min y ≤ y := by
  induction ys generalizing y with
  | nil => exact le_refl y
  | cons a tl ih => exact le_trans (ih (min y a)) (min_le_left y a)

theorem foldl_min_le_mem (ys : List Int) (y x : Int) (hx : x ∈ ys) : ys.foldl min y ≤ x := by
  induction ys generalizing y with
  | nil => cases hx
  | cons a tl ih =>
    rcases List.mem_cons.mp hx with h | h
    · subst h
      exact le_trans (foldl_min_le_init tl (min y x)) (min_le_right y x)
    · exact ih (min y a) h

theorem le_foldl_max_init (ys : List Int) (y : Int) : y ≤ ys.foldl max y := by
  induction ys generalizing y with
  | nil => exact le_refl y
  | cons a tl ih => exact le_trans (le_max_left y a) (ih (max y a))

theorem le_foldl_max_mem (ys : List Int) (y x : Int) (hx : x ∈ ys) : x ≤ ys.foldl max y := by
  induction ys generalizing y with
  | nil => cases hx
  | cons a tl ih =>
    rcases List.mem_cons.mp hx with h | h
    · subst h
      exact le_trans (le_max_right y x) (le_foldl_max_init tl (max y x))
    · exact ih (max y a) h

theorem year_mem_yearList (d : List Row) (r : Row) (hr : r ∈ d) : r.year ∈ yearList d := by
  unfold yearList
  rw [(List.perm_insertionSort _ _).mem_iff, List.mem_dedup]
  exact List.mem_map_of_mem Row.year hr

theorem minYear_le (d : List Row) (r : Row) (hr : r ∈ d) : minYear d ≤ r.year := by
  have hm := year_mem_yearList d r hr
  unfold minYear
  cases hyl : yearList d with
  | nil => rw [hyl] at hm; cases hm
  | cons y ys =>
    rw [hyl] at hm
    rcases List.mem_cons.mp hm with h | h
    · rw [h]
      exact foldl_min_le_init ys y
    · exact foldl_min_le_mem ys y _ h

theorem le_maxYear (d : List Row) (r : Row) (hr : r ∈ d) : r.year ≤ maxYear d := by
  have hm := year_mem_yearList d r hr
  unfold maxYear
  cases hyl : yearList d with
  | nil => rw [hyl] at hm; cases hm
  | cons y ys =>
    rw [hyl] at hm
    rcases List.mem_cons.mp hm with h | h
    · rw [h]
      exact le_foldl_max_init ys y
    · exact le_foldl_max_mem ys y _ h

/-- Claim C10: with the neutral selection — the slider spanning the frame's
minimum to maximum year, sport `"All"` and no country selected — the filter
returns the full frame unchanged. -/
theorem filteredDf_neutral (d : List Row) (hne : d ≠ []) :
    filteredDf d (neutralSel d) = d := by
  unfold filteredDf neutralSel
  simp only [ne_eq, not_true_eq_false, if_false, List.isEmpty_nil, ite_false, ite_true,
    Bool.true_eq_false]
  rw [List.filter_eq_self]
  intro r hr
  simp only [yearOk, Bool.and_eq_true, decide_eq_true_eq]
  exact ⟨minYear_le d r hr, le_maxYear d r hr⟩

/-- Witness for C10 on the two-row frame. -/
theorem filteredDf_neutral_witness :
    twoRowFrame ≠ [] ∧ filteredDf twoRowFrame (neutralSel twoRowFrame) = twoRowFrame :=
  ⟨by decide, filteredDf_neutral twoRowFrame (by decide)⟩
